import Mathlib

/-!
Verification of the CADAC vehicle-simulation engine against its
natural-language specification.

The development shallowly embeds the modules cited by the claims:

* `Ball.termination`   — src/sims/MyProjectile/build/termination.cpp
* `Ball.kinematics`    — src/components/kinematics/kinematics_3dof_flat.cpp
                         and src/example/BALL3/kinematics.cpp (identical bodies)
* `Vehicle.actuator`   — src/components/control/actuator_first_order.cpp
* `Vehicle.propulsion` — src/components/propulsion/propulsion_staging.cpp
* `Vehicle.forcesDrag` — src/components/aerodynamics/drag_simple.cpp
* `Vehicle.seeker`     — src/components/sensors/seeker_perfect.cpp
* `Ball.forcesExample` — src/example/BALL3/forces.cpp
* `Ball.forcesRegression` — src/tests/regression/BALL3/forces.cpp
* the event engine     — src/example/BALL3/ball_functions.cpp (Ball::event)

C++ `double` values are modelled as rationals.  The library square root
(used only through `Matrix::absolute`) is modelled by `ratSqrt`, which is
exact on perfect squares; every concrete input used below evaluates it on
a perfect square, and the guard theorems depend only on comparing the
computed value against thresholds, never on the numerical value of an
inexact root.
-/

namespace CADAC

/-- A 3-vector of rationals, modelling the CADAC `Matrix(3,1)` values. -/
structure Vec3 where
  x : ℚ
  y : ℚ
  z : ℚ
deriving DecidableEq

/-- Componentwise vector addition (`Matrix::operator+`). -/
def Vec3.add (a b : Vec3) : Vec3 := ⟨a.x + b.x, a.y + b.y, a.z + b.z⟩

/-- Componentwise vector subtraction (`Matrix::operator-`). -/
def Vec3.sub (a b : Vec3) : Vec3 := ⟨a.x - b.x, a.y - b.y, a.z - b.z⟩

/-- Vector scaled by a scalar (`Matrix::operator*(double)`). -/
def Vec3.smul (a : Vec3) (c : ℚ) : Vec3 := ⟨a.x * c, a.y * c, a.z * c⟩

/-- The zero vector (`Matrix::zero`). -/
def Vec3.zero : Vec3 := ⟨0, 0, 0⟩

/-- Dot product (CADAC `Matrix::operator^` on 3-vectors). -/
def Vec3.dot (a b : Vec3) : ℚ := a.x * b.x + a.y * b.y + a.z * b.z

/-- Cross product (`a.skew_sym() * b` in CADAC). -/
def Vec3.cross (a b : Vec3) : Vec3 :=
  ⟨a.y * b.z - a.z * b.y, a.z * b.x - a.x * b.z, a.x * b.y - a.y * b.x⟩

/-- Rational stand-in for the C library square root: exact on rationals
whose numerator and denominator are perfect squares, `0` elsewhere.  All
facts proved below either evaluate it on perfect squares or are
independent of its value. -/
def ratSqrt (q : ℚ) : ℚ :=
  let n := q.num.toNat
  let d := q.den
  if Nat.sqrt n * Nat.sqrt n = n ∧ Nat.sqrt d * Nat.sqrt d = d then
    (Nat.sqrt n : ℚ) / (Nat.sqrt d : ℚ)
  else 0

/-- Euclidean norm of a 3-vector (`Matrix::absolute`). -/
def Vec3.absolute (a : Vec3) : ℚ := ratSqrt (a.x * a.x + a.y * a.y + a.z * a.z)

/-! ## Termination module — src/sims/MyProjectile/build/termination.cpp -/

/-- The slots read and written by `Ball::termination`:
`ball[7]` endtime, `ball[8]` min_alt, `ball[9]` min_range, `ball[0]` time,
`ball[22]` altitude, `ball[80]` dta, `ball[162]` intercept_flag. -/
structure TermState where
  endtime : ℚ
  min_alt : ℚ
  min_range : ℚ
  time : ℚ
  altitude : ℚ
  dta : ℚ
  intercept_flag : ℤ
deriving DecidableEq

/-- `Ball::termination` (termination.cpp lines 81-130): four sequential
`if` statements without `else`, each overwriting `stop`/`lconv`; the
result is the pair `(stop, lconv)` written to `ball[5]`/`ball[6]`. -/
def Ball.termination (s : TermState) : ℤ × ℤ :=
  let stop : ℤ := 0
  let lconv : ℤ := 0
  -- 1. Time limit exceeded
  let (stop, lconv) := if s.time ≥ s.endtime then ((1 : ℤ), (1 : ℤ)) else (stop, lconv)
  -- 2. Ground impact (altitude below minimum)
  let (stop, lconv) := if s.altitude ≤ s.min_alt then ((1 : ℤ), (2 : ℤ)) else (stop, lconv)
  -- 3. Target proximity (range below minimum)
  let (stop, lconv) :=
    if s.dta ≤ s.min_range ∧ s.dta > 0 then ((1 : ℤ), (3 : ℤ)) else (stop, lconv)
  -- 4. Intercept detected
  let (stop, lconv) := if s.intercept_flag = 1 then ((1 : ℤ), (4 : ℤ)) else (stop, lconv)
  (stop, lconv)

/-- Input on which both the time-limit and the ground-impact predicates
are satisfied (used against claim C1). -/
def termTimeAndGround : TermState :=
  { endtime := 0, min_alt := 0, min_range := 0,
    time := 0, altitude := -1, dta := 0, intercept_flag := 0 }

/-- Input on which the range-to-target is `0 ≤ min_range` while no other
stop condition holds (used against claim C6). -/
def termZeroRange : TermState :=
  { endtime := 10, min_alt := -5, min_range := 10,
    time := 0, altitude := 100, dta := 0, intercept_flag := 0 }

/-! ## Integrator — `integrate` is called by the modules under src/ but its
definition lives in the utility library that is not part of src/. -/

/-- Modelled from the spec: the scalar trapezoidal integrator `integrate`
(spec §4.4), whose definition (utility library) is missing from src/:
`new_value = prev_value + 0.5 * step * (prev_derivative + new_derivative)`. -/
def integrate (dydx_new dydx y int_step : ℚ) : ℚ :=
  y + 0.5 * int_step * (dydx + dydx_new)

/-! ## Kinematics — src/components/kinematics/kinematics_3dof_flat.cpp and
src/example/BALL3/kinematics.cpp (the two exec bodies are line-for-line
identical; only the array name differs). -/

/-- The slots touched by the kinematics exec phase: `[14]` FSPB (read),
`[20]` SBEL, `[21]` VBEL (state), `[22]` altitude (out). -/
structure KinState where
  fspb : Vec3
  sbel : Vec3
  vbel : Vec3
  altitude : ℚ
deriving DecidableEq

/-- `kinematics(double int_step)` (kinematics_3dof_flat.cpp lines 126-168,
identically src/example/BALL3/kinematics.cpp lines 70-112): explicit Euler
velocity and position updates followed by the ground clamp. -/
def Ball.kinematics (s : KinState) (int_step : ℚ) : KinState :=
  let ABEL := s.fspb                             -- acceleration = specific force
  let VBEL := s.vbel.add (ABEL.smul int_step)    -- v = v0 + a*dt
  let SBEL := s.sbel.add (VBEL.smul int_step)    -- s = s0 + v*dt
  let altitude := -SBEL.z
  if altitude ≤ 0 then
    { s with sbel := ⟨SBEL.x, SBEL.y, 0⟩, vbel := Vec3.zero, altitude := 0 }
  else
    { s with sbel := SBEL, vbel := VBEL, altitude := altitude }

/-- A state whose freshly integrated position is below ground (witness
input for claim C9). -/
def kinBelowGround : KinState :=
  { fspb := ⟨0, 0, 0⟩, sbel := ⟨0, 0, 5⟩, vbel := ⟨0, 0, 0⟩, altitude := 0 }

/-! ## Actuator — src/components/control/actuator_first_order.cpp -/

/-- The slots touched by the actuator exec phase: `[602]` dlimx,
`[606]` tauact (data), `[519..521]` commanded deflections (read),
`[615..617]` positions (state), `[619..621]` deflections (out). -/
structure ActState where
  dlimx : ℚ
  tauact : ℚ
  delacx : ℚ
  delecx : ℚ
  delrcx : ℚ
  dela : ℚ
  dele : ℚ
  delr : ℚ
  delax : ℚ
  delex : ℚ
  delrx : ℚ
deriving DecidableEq

/-- `actuator(double int_step)` (actuator_first_order.cpp lines 100-158):
each channel computes the new derivative, calls
`integrate(<new derivative>, 0, <state>, int_step)` with the literal
constant `0` as previous derivative, then applies the position limits. -/
def Vehicle.actuator (s : ActState) (int_step : ℚ) : ActState :=
  -- Aileron channel
  let delad_new := (s.delacx - s.dela) / s.tauact
  let dela := integrate delad_new 0 s.dela int_step
  let dela := if dela > s.dlimx then s.dlimx else dela
  let dela := if dela < -s.dlimx then -s.dlimx else dela
  let delax := dela
  -- Elevator channel
  let deled_new := (s.delecx - s.dele) / s.tauact
  let dele := integrate deled_new 0 s.dele int_step
  let dele := if dele > s.dlimx then s.dlimx else dele
  let dele := if dele < -s.dlimx then -s.dlimx else dele
  let delex := dele
  -- Rudder channel
  let delrd_new := (s.delrcx - s.delr) / s.tauact
  let delr := integrate delrd_new 0 s.delr int_step
  let delr := if delr > s.dlimx then s.dlimx else delr
  let delr := if delr < -s.dlimx then -s.dlimx else delr
  let delrx := delr
  { s with dela := dela, dele := dele, delr := delr,
           delax := delax, delex := delex, delrx := delrx }

/-- The position-limit cascade as the actuator applies it (the two
sequential `if` statements of each channel). -/
def actLimit (l v : ℚ) : ℚ :=
  let v := if v > l then l else v
  if v < -l then -l else v

/-- The state update claim C3 asserts for the actuator aileron channel on
a first step: the trapezoidal rule through `integrate` with the previous
derivative seeded to the first-computed derivative (limits applied as in
the code). -/
def actAileronClaimed (s : ActState) (int_step : ℚ) : ℚ :=
  let delad_new := (s.delacx - s.dela) / s.tauact
  actLimit s.dlimx (integrate delad_new delad_new s.dela int_step)

/-- Concrete actuator input refuting claim C3: unit command, unit time
constant, zero initial deflection, wide limit. -/
def actStepIn : ActState :=
  { dlimx := 10, tauact := 1, delacx := 1, delecx := 0, delrcx := 0,
    dela := 0, dele := 0, delr := 0, delax := 0, delex := 0, delrx := 0 }

/-! ## Drag forces — src/components/aerodynamics/drag_simple.cpp -/

/-- The slots touched by the drag exec phase: `[10]` cd, `[11]` area
(data), `[0]` grav, `[12]` rho, `[21]` VBEL (read), `[13]` dvbe,
`[14]` FSPB (out). -/
structure DragState where
  cd : ℚ
  area : ℚ
  grav : ℚ
  rho : ℚ
  vbel : Vec3
  dvbe : ℚ
  fspb : Vec3
deriving DecidableEq

/-- `forces(double int_step)` (drag_simple.cpp lines 83-126): the velocity
unit vector is formed only when `dvbe > 0.1`; otherwise the zero vector is
substituted and the division by `dvbe` never happens. -/
def Vehicle.forcesDrag (s : DragState) : DragState :=
  let dvbe := s.vbel.absolute
  let drag_mag := 0.5 * s.rho * dvbe * dvbe * s.cd * s.area
  let VBEL_unit := if dvbe > 0.1 then s.vbel.smul (1 / dvbe) else Vec3.zero
  let fspb : Vec3 :=
    ⟨-drag_mag * VBEL_unit.x,
     -drag_mag * VBEL_unit.y,
     -drag_mag * VBEL_unit.z - s.grav⟩
  { s with dvbe := dvbe, fspb := fspb }

/-- Drag input at rest (witness input for claim C7). -/
def dragAtRest : DragState :=
  { cd := 1/2, area := 1, grav := 9.81, rho := 1.225,
    vbel := ⟨0, 0, 0⟩, dvbe := 0, fspb := ⟨0, 0, 0⟩ }

/-! ## Seeker — src/components/sensors/seeker_perfect.cpp -/

/-- The slots touched by the seeker exec phase: `[20]` SAEL, `[21]` VAEL,
`[200]` STEL, `[201]` VTEL (read), `[80]` dta, `[81]` dvta, `[82]` tgo,
`[87]` UTAA, `[88]` WOEA, `[89]` STAL (out). -/
structure SeekerState where
  sael : Vec3
  vael : Vec3
  stel : Vec3
  vtel : Vec3
  dta : ℚ
  dvta : ℚ
  tgo : ℚ
  utaa : Vec3
  woea : Vec3
  stal : Vec3
deriving DecidableEq

/-- `seeker(double int_step)` (seeker_perfect.cpp lines 81-155): the LOS
unit vector and LOS rate are formed only when `dta > 0.1`; otherwise the
zero vector is substituted and the divisions by `dta` never happen. -/
def Vehicle.seeker (s : SeekerState) : SeekerState :=
  let STAL := s.stel.sub s.sael
  let dta := STAL.absolute
  let UTAL := if dta > 0.1 then STAL.smul (1 / dta) else Vec3.zero
  let VTAEL := s.vtel.sub s.vael
  let dvta := -(UTAL.dot VTAEL)
  let tgo := if |dvta| > 0.1 then dta / |dvta| else 0
  let WOEA := if dta > 0.1 then (UTAL.cross VTAEL).smul (1 / dta) else Vec3.zero
  let UTAA := UTAL
  { s with dta := dta, dvta := dvta, tgo := tgo,
           utaa := UTAA, woea := WOEA, stal := STAL }

/-- Seeker input with missile and target co-located (witness input for
claim C7). -/
def seekerCoLocated : SeekerState :=
  { sael := ⟨0, 0, 0⟩, vael := ⟨3, 0, 0⟩, stel := ⟨0, 0, 0⟩, vtel := ⟨0, 0, 0⟩,
    dta := 0, dvta := 0, tgo := 0,
    utaa := ⟨0, 0, 0⟩, woea := ⟨0, 0, 0⟩, stal := ⟨0, 0, 0⟩ }

/-! ## The two BALL3 forces modules — src/example/BALL3/forces.cpp and
src/tests/regression/BALL3/forces.cpp -/

/-- The BALL3 store slots relevant to both forces modules:
`ball[0]` grav, `ball[10]` cd, `ball[11]` area, `ball[12]` rho,
`ball[13]` dvbe, `ball[14]` FSPB, `ball[20]` SBEL, `ball[21]` VBEL. -/
structure BallStore where
  grav : ℚ
  cd : ℚ
  area : ℚ
  rho : ℚ
  dvbe : ℚ
  fspb : Vec3
  sbel : Vec3
  vbel : Vec3
deriving DecidableEq

/-- `Ball::forces` of the example (src/example/BALL3/forces.cpp lines
30-75): reads its velocity from `ball[20]` (the SBEL slot), hardcodes
`rho = 1.225` and writes it to `ball[12]`, guards the unit vector with
`dvbe > 0.1`, and puts `-grav` into the down component. -/
def Ball.forcesExample (s : BallStore) : BallStore :=
  let VBEL := s.sbel                  -- Matrix VBEL=ball[20].vec();
  let rho : ℚ := 1.225
  let dvbe := VBEL.absolute
  let drag_mag := 0.5 * rho * dvbe * dvbe * s.cd * s.area
  let VBEL_unit := if dvbe > 0.1 then VBEL.smul (1 / dvbe) else Vec3.zero
  let FSPB : Vec3 :=
    ⟨-drag_mag * VBEL_unit.x,
     -drag_mag * VBEL_unit.y,
     -drag_mag * VBEL_unit.z - s.grav⟩
  { s with rho := rho, dvbe := dvbe, fspb := FSPB }

/-- `Ball::forces` of the regression copy (src/tests/regression/BALL3/
forces.cpp lines 13-41): reads its velocity from `ball[21]`, reads `rho`
from `ball[12]`, guards the drag with `dvbe > 0.01`, and adds `+grav` to
the down component. -/
def Ball.forcesRegression (s : BallStore) : BallStore :=
  let VBEL := s.vbel                  -- Matrix VBEL=ball[21].vec();
  let dvbe := VBEL.absolute
  let FSPB : Vec3 :=
    if dvbe > 0.01 then
      let q := 0.5 * s.rho * dvbe * dvbe
      let drag_dir := VBEL.smul (-1 / dvbe)
      drag_dir.smul (q * s.cd * s.area / 1)
    else Vec3.zero                    -- Matrix FSPB(3,1) starts zeroed
  let FSPB : Vec3 := ⟨FSPB.x, FSPB.y, FSPB.z + s.grav⟩
  { s with dvbe := dvbe, fspb := FSPB }

/-- A store agreeing on the cd, area, gravity, density, position and
velocity slots for both forces modules, on which their outputs differ
(counterexample input for claim C10). -/
def ballDivergent : BallStore :=
  { grav := 9.81, cd := 0, area := 0, rho := 1.225,
    dvbe := 0, fspb := ⟨0, 0, 0⟩, sbel := ⟨0, 0, 0⟩, vbel := ⟨1, 0, 0⟩ }

/-! ## Propulsion — src/components/propulsion/propulsion_staging.cpp -/

/-- A 3×3 rational matrix, modelling the CADAC `Matrix(3,3)` values used
for the inertia tensor. -/
structure Mat3 where
  m11 : ℚ
  m12 : ℚ
  m13 : ℚ
  m21 : ℚ
  m22 : ℚ
  m23 : ℚ
  m31 : ℚ
  m32 : ℚ
  m33 : ℚ
deriving DecidableEq

/-- The zero 3×3 matrix (`Matrix::zero`). -/
def Mat3.zero : Mat3 := ⟨0, 0, 0, 0, 0, 0, 0, 0, 0⟩

/-- Componentwise matrix addition. -/
def Mat3.add (a b : Mat3) : Mat3 :=
  ⟨a.m11 + b.m11, a.m12 + b.m12, a.m13 + b.m13,
   a.m21 + b.m21, a.m22 + b.m22, a.m23 + b.m23,
   a.m31 + b.m31, a.m32 + b.m32, a.m33 + b.m33⟩

/-- Componentwise matrix subtraction. -/
def Mat3.sub (a b : Mat3) : Mat3 :=
  ⟨a.m11 - b.m11, a.m12 - b.m12, a.m13 - b.m13,
   a.m21 - b.m21, a.m22 - b.m22, a.m23 - b.m23,
   a.m31 - b.m31, a.m32 - b.m32, a.m33 - b.m33⟩

/-- A matrix scaled by a scalar. -/
def Mat3.smul (a : Mat3) (c : ℚ) : Mat3 :=
  ⟨a.m11 * c, a.m12 * c, a.m13 * c,
   a.m21 * c, a.m22 * c, a.m23 * c,
   a.m31 * c, a.m32 * c, a.m33 * c⟩

/-- `zero()` followed by the three diagonal `assign_loc` calls of the
propulsion module. -/
def Mat3.diag (a b c : ℚ) : Mat3 := ⟨a, 0, 0, 0, b, 0, 0, 0, c⟩

/-- Modelled from the spec: the process-wide standard-gravity constant
`AGRAV` (spec §9, "Global mutable store": standard gravity), whose
definition (global header) is missing from src/; `g = 9.80665 m/s²` as in
the propulsion file's own reference block. -/
def AGRAV : ℚ := 9.80665

/-- The slots touched by `Vehicle::propulsion`: `[10]` mprop (int, data),
`[16]` vmass0, `[21]` fmass0, `[24]` aexit, `[25]` spi, `[28]` xcg_0,
`[29]` xcg_1, `[33]` fuel_flow_rate, `[38..41]` MOIs (data), `[15]` vmass,
`[17]` xcg, `[18]` IBBB, `[26]` thrust (out), `[22]` fmasse,
`[23]` fmassd (state), `[27]` fmassr, `[42]` mfreeze_prop, `[43]` thrustf,
`[44]` vmassf, `[45]` IBBBF (save), `[52]` press, `[503]` mfreeze (read). -/
structure PropState where
  mprop : ℤ
  vmass0 : ℚ
  fmass0 : ℚ
  aexit : ℚ
  spi : ℚ
  xcg_0 : ℚ
  xcg_1 : ℚ
  fuel_flow_rate : ℚ
  moi_roll_0 : ℚ
  moi_roll_1 : ℚ
  moi_trans_0 : ℚ
  moi_trans_1 : ℚ
  vmass : ℚ
  xcg : ℚ
  ibbb : Mat3
  fmasse : ℚ
  fmassd : ℚ
  fmassr : ℚ
  mfreeze_prop : ℤ
  thrustf : ℚ
  vmassf : ℚ
  ibbbf : Mat3
  thrust : ℚ
  press : ℚ
  mfreeze : ℤ
deriving DecidableEq

/-- `Vehicle::propulsion(double int_step)` (propulsion_staging.cpp lines
171-303).  At the end the function writes, among others, `vehicle[10]`
(mprop) — a slot declared with role tag `data` — and this write is what
persists engine shutdown (`mprop = 0` once `fmassr ≤ 0`). -/
def Vehicle.propulsion (s : PropState) (int_step : ℚ) : PropState :=
  let psl : ℚ := 101325
  let thrust : ℚ := 0
  let mprop := s.mprop
  let fmasse := s.fmasse
  let fmassd := s.fmassd
  let fmassr := s.fmassr
  let vmass := s.vmass
  let xcg := s.xcg
  let IBBB := s.ibbb
  -- **NO THRUSTING**
  let (fmassd, fmasse, fmassr) :=
    if mprop = 0 then ((0 : ℚ), (0 : ℚ), (0 : ℚ)) else (fmassd, fmasse, fmassr)
  -- **PROPULSION ACTIVE**
  let (mprop, thrust, fmasse, fmassd, fmassr, vmass, xcg, IBBB) :=
    if 0 < mprop then
      -- **Constant thrust rocket engine**
      let (thrust, IBBB0, IBBB1) :=
        if mprop = 3 ∨ mprop = 4 then
          (s.spi * s.fuel_flow_rate * AGRAV + (psl - s.press) * s.aexit,
           Mat3.diag s.moi_roll_0 s.moi_trans_0 s.moi_trans_0,
           Mat3.diag s.moi_roll_1 s.moi_trans_1 s.moi_trans_1)
        else (thrust, Mat3.zero, Mat3.zero)
      -- **Fuel consumption integration**
      let (fmasse, fmassd) :=
        if s.spi ≠ 0 then
          let fmassd_next := thrust / (s.spi * AGRAV)
          (integrate fmassd_next fmassd fmasse int_step, fmassd_next)
        else (fmasse, fmassd)
      -- **Update mass and fuel remaining**
      let vmass := s.vmass0 - fmasse
      let fmassr := s.fmass0 - fmasse
      -- **Interpolate inertia tensor as function of fuel expended**
      let mass_ratio := fmasse / s.fmass0
      let IBBB := IBBB0.add ((IBBB1.sub IBBB0).smul mass_ratio)
      -- **Interpolate CG as function of fuel expended**
      let xcg := s.xcg_0 + (s.xcg_1 - s.xcg_0) * mass_ratio
      -- **Engine shutdown when fuel exhausted**
      let (mprop, thrust) := if fmassr ≤ 0 then ((0 : ℤ), (0 : ℚ)) else (mprop, thrust)
      (mprop, thrust, fmasse, fmassd, fmassr, vmass, xcg, IBBB)
    else (mprop, thrust, fmasse, fmassd, fmassr, vmass, xcg, IBBB)
  -- **Freeze variables for autopilot response calculations**
  let (mfreeze_prop, thrustf, vmassf, IBBBF, thrust, vmass, IBBB) :=
    if s.mfreeze = 0 then
      ((0 : ℤ), s.thrustf, s.vmassf, s.ibbbf, thrust, vmass, IBBB)
    else
      let (mfreeze_prop, thrustf, vmassf, IBBBF) :=
        if s.mfreeze ≠ s.mfreeze_prop then (s.mfreeze, thrust, vmass, IBBB)
        else (s.mfreeze_prop, s.thrustf, s.vmassf, s.ibbbf)
      (mfreeze_prop, thrustf, vmassf, IBBBF, thrustf, vmassf, IBBBF)
  { s with fmasse := fmasse, fmassd := fmassd,
           mprop := mprop, fmassr := fmassr,
           mfreeze_prop := mfreeze_prop, thrustf := thrustf,
           vmassf := vmassf, ibbbf := IBBBF,
           vmass := vmass, xcg := xcg, ibbb := IBBB, thrust := thrust }

/-- The role tags declared by `Vehicle::def_propulsion`
(propulsion_staging.cpp lines 115-144) for the slots it owns. -/
inductive Role
  | data
  | state
  | save
  | out
deriving DecidableEq

/-- Slot-index-to-role map from `def_propulsion`: in particular slot `10`
(mprop) is declared with role tag `data`. -/
def propulsionRole (i : ℕ) : Option Role :=
  if i = 10 ∨ i = 11 ∨ i = 16 ∨ i = 21 ∨ i = 24 ∨ i = 25 ∨ i = 28 ∨ i = 29 ∨
     i = 33 ∨ i = 36 ∨ i = 37 ∨ i = 38 ∨ i = 39 ∨ i = 40 ∨ i = 41 then
    some Role.data
  else if i = 22 ∨ i = 23 then some Role.state
  else if i = 27 ∨ i = 42 ∨ i = 43 ∨ i = 44 ∨ i = 45 then some Role.save
  else if i = 15 ∨ i = 17 ∨ i = 18 ∨ i = 26 then some Role.out
  else none

/-- A propulsion input one step short of fuel exhaustion: the exec step
drives `fmassr` below zero, so the shutdown branch writes `mprop = 0`
back into the data-role slot 10 (counterexample input for claim C2). -/
def propNearEmpty : PropState :=
  { mprop := 3, vmass0 := 1000, fmass0 := 200, aexit := 0, spi := 290,
    xcg_0 := 0, xcg_1 := 0, fuel_flow_rate := 150,
    moi_roll_0 := 0, moi_roll_1 := 0, moi_trans_0 := 0, moi_trans_1 := 0,
    vmass := 900, xcg := 0, ibbb := Mat3.zero,
    fmasse := 100, fmassd := 150, fmassr := 100,
    mfreeze_prop := 0, thrustf := 0, vmassf := 0, ibbbf := Mat3.zero,
    thrust := 0, press := 101325, mfreeze := 0 }

/-! ## Variable store and event engine — src/example/BALL3/ball_functions.cpp

The `Variable` class itself (its `init`/`gets`/`real`/`integer` members)
lives in the utility library that is not part of src/.  Its slot values
are modelled from the spec (§3, §4.2): a slot carries a kind and a value
of that kind, and a typed write whose kind disagrees with the slot's kind
fails with `KindMismatch`. -/

/-- Modelled from the spec: a slot value of the variable store — an
integer-kind or real-kind value (events only touch these two kinds; the
loader's own comment says "only real and integer variables can be read"). -/
inductive VValue
  | iv (n : ℤ)
  | rv (q : ℚ)
deriving DecidableEq

/-- Modelled from the spec: the error kinds of §7 raised by the store. -/
inductive ErrKind
  | KindMismatch
  | ImmutableParameter
deriving DecidableEq

/-- The variable store as the ordered slot array, indexed by position. -/
def VStore : Type := List VValue

/-- Modelled from the spec: `write_int` — fails with `KindMismatch` if the
slot's kind disagrees (§4.2). -/
def writeInt (st : VStore) (i : ℕ) (n : ℤ) : Except ErrKind VStore :=
  match st.getD i (VValue.rv 0) with
  | VValue.iv _ => Except.ok (st.set i (VValue.iv n))
  | VValue.rv _ => Except.error ErrKind.KindMismatch

/-- Modelled from the spec: `write_real` — fails with `KindMismatch` if
the slot's kind disagrees (§4.2). -/
def writeReal (st : VStore) (i : ℕ) (q : ℚ) : Except ErrKind VStore :=
  match st.getD i (VValue.rv 0) with
  | VValue.iv _ => Except.error ErrKind.KindMismatch
  | VValue.rv _ => Except.ok (st.set i (VValue.rv q))

/-- The C `(int)` cast: truncation toward zero. -/
def truncInt (q : ℚ) : ℤ := if 0 ≤ q then ⌊q⌋ else -⌊-q⌋

/-- The reassignment loop of `Ball::event` (ball_functions.cpp lines
810-822) over the kind-checked store: for each (index, value) pair, if
the slot's type is `int` the value is converted and written with the
integer writer — and then, because the `else` is missing before line 821,
`ball[index].gets(value)` runs unconditionally, performing a real-kind
write on the same slot. -/
def eventApplyAssigns (st : VStore) (asg : List (ℕ × ℚ)) : Except ErrKind VStore :=
  match asg with
  | [] => Except.ok st
  | (index, value) :: rest =>
    let intWrite :=
      match st.getD index (VValue.rv 0) with
      | VValue.iv _ => writeInt st index (truncInt value)
      | VValue.rv _ => Except.ok st
    match intWrite with
    | Except.error e => Except.error e
    | Except.ok st1 =>
      match writeReal st1 index value with     -- no else: always executed
      | Except.error e => Except.error e
      | Except.ok st2 => eventApplyAssigns st2 rest

/-- An event as bound by the scenario loader (ball_functions.cpp lines
334-389): a watched slot index, a relational operator character, a
critical value, and the reassignment list. -/
structure Event where
  watch : ℕ
  oper : Char
  crit : ℚ
  assigns : List (ℕ × ℚ)
deriving DecidableEq

/-- The mutable event bookkeeping of class `Ball`: `nevent` (index of the
next event to watch) and `event_total` (zeroed once all events fired). -/
structure EngineState where
  nevent : ℕ
  event_total : ℕ
deriving DecidableEq

/-- The condition test of `Ball::event` (ball_functions.cpp lines
739-793): the watched slot is read; if its type is `int` both sides are
compared as integers (the critical value cast by `(int)`), otherwise as
reals; the operator is one of `<`, `=`, `>`. -/
def eventCond (st : VStore) (ev : Event) : Bool :=
  match st.getD ev.watch (VValue.rv 0) with
  | VValue.iv n =>
    let c := truncInt ev.crit
    if ev.oper = '<' then decide (n < c)
    else if ev.oper = '=' then decide (n = c)
    else if ev.oper = '>' then decide (c < n)
    else false
  | VValue.rv q =>
    if ev.oper = '<' then decide (q < ev.crit)
    else if ev.oper = '=' then decide (q = ev.crit)
    else if ev.oper = '>' then decide (ev.crit < q)
    else false

/-- The bookkeeping update on firing (ball_functions.cpp lines 833-835):
`nevent++`, and `event_total` reset to `0` after the last event fired. -/
def eventFire (es : EngineState) : EngineState :=
  { nevent := es.nevent + 1,
    event_total := if es.nevent + 1 = es.event_total then 0 else es.event_total }

/-- The test-and-fire part of `Ball::event` applied to the event found at
index `nevent` (`none` models `nevent` beyond the loaded events, where
the engine has nothing armed). -/
def eventTest (st : VStore) (es : EngineState) :
    Option Event → EngineState × Option ℕ
  | none => (es, none)
  | some ev =>
    if eventCond st ev then (eventFire es, some es.nevent) else (es, none)

/-- One call of `Ball::event` (ball_functions.cpp lines 721-837) as far
as the event bookkeeping is concerned: nothing happens when
`event_total = 0` (line 737); otherwise only the event at index `nevent`
is tested, and on firing `nevent` is incremented.  Returns the index of
the event that fired, if any.  The per-step store is an input: the
modules wrote it before the engine runs. -/
def eventStep (evs : List Event) (es : EngineState) (st : VStore) :
    EngineState × Option ℕ :=
  if es.event_total = 0 then (es, none)
  else eventTest st es (evs.get? es.nevent)

/-- The engine iterated over the per-step stores of a run: the list of
fired-event reports, one per step. -/
def eventRun (evs : List Event) (es : EngineState) :
    List VStore → List (Option ℕ)
  | [] => []
  | st :: rest =>
    let step := eventStep evs es st
    step.2 :: eventRun evs step.1 rest

/-- A store whose slot 0 has integer kind (failing input for claim C4). -/
def intSlotStore : VStore := [VValue.iv 0]

/-- Two events watching the real slot 0 of `evStore`, both with
conditions already true; used to witness claim C8. -/
def evFirst : Event := { watch := 0, oper := '>', crit := 1, assigns := [] }

/-- The later-declared event of the claim C8 witness; its condition also
holds on `evStore`. -/
def evSecond : Event := { watch := 0, oper := '>', crit := 2, assigns := [] }

/-- A store on which both `evFirst` and `evSecond` have true conditions. -/
def evStore : VStore := [VValue.rv 5]

/-! ## Claim C1 — which stop predicate's reason code is recorded -/

/-- Claim C1 (counterexample): on `termTimeAndGround` both the time-limit
predicate (declared first, reason 1) and the ground-impact predicate
(declared second, reason 2) are satisfied, yet the recorded reason code
is 2 — the later predicate, not the earliest one as the claim states. -/
theorem C1_counterexample :
    termTimeAndGround.time ≥ termTimeAndGround.endtime ∧
    termTimeAndGround.altitude ≤ termTimeAndGround.min_alt ∧
    Ball.termination termTimeAndGround = (1, 2) := by
  decide

/-- Claim C1 (amended): when several stop predicates are satisfied the
recorded reason code is that of the LAST satisfied predicate in declared
order (time limit, ground impact, proximity, intercept) — each sequential
`if` in `Ball::termination` overwrites the reason of any earlier one. -/
theorem C1_last_satisfied_predicate_wins (s : TermState) :
    (Ball.termination s).2 =
      if s.intercept_flag = 1 then 4
      else if s.dta ≤ s.min_range ∧ s.dta > 0 then 3
      else if s.altitude ≤ s.min_alt then 2
      else if s.time ≥ s.endtime then 1
      else 0 := by
  unfold Ball.termination
  split_ifs <;> rfl

/-! ## Claim C6 — stop flag and reason-code invariant -/

/-- Claim C6 (counterexample): on `termZeroRange` the range-to-target
`dta = 0` satisfies the claim's proximity condition `dta ≤ min_range`,
yet the stop flag stays 0 — the code additionally requires `dta > 0`. -/
theorem C6_counterexample :
    termZeroRange.dta ≤ termZeroRange.min_range ∧
    Ball.termination termZeroRange = (0, 0) := by
  decide

/-- Claim C6 (amended): whenever the stop flag is set the recorded reason
code is one of {1, 2, 3, 4}; conversely the stop flag is set exactly when
`time ≥ endtime`, `altitude ≤ min_alt`, `dta ≤ min_range ∧ dta > 0` (the
proximity predicate carries the extra positivity guard), or
`intercept_flag = 1`. -/
theorem C6_stop_reason_invariant (s : TermState) :
    ((Ball.termination s).1 = 1 ↔
      (s.time ≥ s.endtime ∨ s.altitude ≤ s.min_alt ∨
        (s.dta ≤ s.min_range ∧ s.dta > 0) ∨ s.intercept_flag = 1)) ∧
    ((Ball.termination s).1 = 0 ∨
      ((Ball.termination s).2 = 1 ∨ (Ball.termination s).2 = 2 ∨
        (Ball.termination s).2 = 3 ∨ (Ball.termination s).2 = 4)) := by
  unfold Ball.termination
  split_ifs <;> simp_all

/-- Claim C6 (witness): the amended invariant evaluated on the concrete
input `termTimeAndGround`, whose stop flag is set with reason 2. -/
theorem C6_stop_reason_invariant_witness :
    ((Ball.termination termTimeAndGround).1 = 1 ↔
      (termTimeAndGround.time ≥ termTimeAndGround.endtime ∨
        termTimeAndGround.altitude ≤ termTimeAndGround.min_alt ∨
        (termTimeAndGround.dta ≤ termTimeAndGround.min_range ∧
          termTimeAndGround.dta > 0) ∨
        termTimeAndGround.intercept_flag = 1)) ∧
    ((Ball.termination termTimeAndGround).1 = 0 ∨
      ((Ball.termination termTimeAndGround).2 = 1 ∨
        (Ball.termination termTimeAndGround).2 = 2 ∨
        (Ball.termination termTimeAndGround).2 = 3 ∨
        (Ball.termination termTimeAndGround).2 = 4)) :=
  C6_stop_reason_invariant termTimeAndGround

/-! ## Claim C3 — the integration contract of the dynamic modules -/

/-- The shared integrator applied with a constant `0` previous derivative
degenerates to a half-step Euler update. -/
lemma integrate_zero_prev (d y dt : ℚ) : integrate d 0 y dt = y + 1/2 * dt * d := by
  unfold integrate
  ring_nf

/-- Claim C3 (counterexample): on the concrete first step `actStepIn`
with `int_step = 1` the actuator aileron state becomes `1/2`, while the
claimed update — the trapezoidal rule through the shared integrator with
the previous derivative seeded to the first-computed derivative — gives
`1`.  The actuator passes the literal constant `0` as previous
derivative, so its update is not the claimed formula. -/
theorem C3_counterexample :
    (Vehicle.actuator actStepIn 1).dela = 1/2 ∧
    actAileronClaimed actStepIn 1 = 1 ∧
    ((1 : ℚ)/2) ≠ 1 := by
  refine ⟨?_, ?_, by norm_num⟩
  · norm_num [Vehicle.actuator, integrate, actStepIn]
  · norm_num [actAileronClaimed, actLimit, integrate, actStepIn]

/-- Claim C3 (amended): the shared integrator entry point is trapezoidal,
but the dynamic modules do not all advance their states through it as the
claim says: `actuator_first_order` calls `integrate` with a constant `0`
previous derivative, so each channel's update is
`new = prev + (1/2)*step*new_derivative` (then position-limited), and
`kinematics_3dof_flat` does not call the integrator at all — its velocity
update is the explicit Euler `v + a*step` (or the ground clamp to zero). -/
theorem C3_not_all_modules_trapezoidal (a : ActState) (k : KinState) (dt : ℚ) :
    (Vehicle.actuator a dt).dela =
      actLimit a.dlimx (a.dela + 1/2 * dt * ((a.delacx - a.dela) / a.tauact)) ∧
    ((Ball.kinematics k dt).vbel = Vec3.zero ∨
      (Ball.kinematics k dt).vbel = k.vbel.add (k.fspb.smul dt)) := by
  constructor
  · simp only [Vehicle.actuator, actLimit, integrate_zero_prev]
  · simp only [Ball.kinematics]
    split_ifs <;> simp

/-! ## Claim C9 — the kinematics ground clamp keeps altitude nonnegative -/

/-- Claim C9: after every kinematics exec step the altitude slot holds a
value `≥ 0`; and whenever the freshly integrated position has
`altitude ≤ 0` the module writes altitude `0`, zeroes the down component
of the position, and writes the zero velocity vector. -/
theorem C9_kinematics_ground_clamp (s : KinState) (dt : ℚ) :
    0 ≤ (Ball.kinematics s dt).altitude ∧
    (0 ≤ s.sbel.z + (s.vbel.z + s.fspb.z * dt) * dt →
      (Ball.kinematics s dt).altitude = 0 ∧
      (Ball.kinematics s dt).sbel.z = 0 ∧
      (Ball.kinematics s dt).vbel = Vec3.zero) := by
  simp only [Ball.kinematics, Vec3.add, Vec3.smul]
  constructor
  · split_ifs with h
    · rfl
    · simp only [not_le] at h
      exact le_of_lt h
  · intro hz
    split_ifs with h
    · exact ⟨rfl, rfl, rfl⟩
    · exfalso
      simp only [not_le, neg_pos] at h
      linarith

/-- Claim C9 (witness): the clamp evaluated on the concrete below-ground
input `kinBelowGround` with step 1. -/
theorem C9_kinematics_ground_clamp_witness :
    (0 ≤ (Ball.kinematics kinBelowGround 1).altitude ∧
      ((Ball.kinematics kinBelowGround 1).altitude = 0 ∧
        (Ball.kinematics kinBelowGround 1).sbel.z = 0 ∧
        (Ball.kinematics kinBelowGround 1).vbel = Vec3.zero)) :=
  ⟨(C9_kinematics_ground_clamp kinBelowGround 1).1,
   (C9_kinematics_ground_clamp kinBelowGround 1).2 (by norm_num [kinBelowGround])⟩

/-! ## Claim C7 — the 0.1 epsilon guards in drag and seeker -/

/-- Claim C7: when the speed `dvbe` (resp. the range `dta`) has absolute
value below the `0.1` threshold, the drag (resp. seeker) computation
substitutes the zero vector for the velocity (resp. line-of-sight) unit
vector, so the guarded divisions are never evaluated and every output
equals a division-free closed form: the drag specific force is pure
gravity `(0, 0, -grav)`, and the seeker's LOS unit vector, LOS rate,
closing velocity and time-to-go are all zero. -/
theorem C7_epsilon_guards (d : DragState) (sk : SeekerState)
    (h1 : |Vec3.absolute d.vbel| < 0.1)
    (h2 : |Vec3.absolute (sk.stel.sub sk.sael)| < 0.1) :
    (Vehicle.forcesDrag d).fspb = ⟨0, 0, -d.grav⟩ ∧
    (Vehicle.forcesDrag d).dvbe = Vec3.absolute d.vbel ∧
    (Vehicle.seeker sk).utaa = Vec3.zero ∧
    (Vehicle.seeker sk).woea = Vec3.zero ∧
    (Vehicle.seeker sk).dvta = 0 ∧
    (Vehicle.seeker sk).tgo = 0 := by
  have h1' : ¬(Vec3.absolute d.vbel > 0.1) := by
    have := (abs_lt.mp h1).2
    linarith
  have h2' : ¬(Vec3.absolute (sk.stel.sub sk.sael) > 0.1) := by
    have := (abs_lt.mp h2).2
    linarith
  simp only [Vehicle.forcesDrag, Vehicle.seeker]
  rw [if_neg h1', if_neg h2', if_neg h2']
  norm_num [Vec3.zero, Vec3.dot]

/-- Claim C7 (witness): the guards evaluated on the concrete inputs
`dragAtRest` (zero velocity) and `seekerCoLocated` (zero range). -/
theorem C7_epsilon_guards_witness :
    (Vehicle.forcesDrag dragAtRest).fspb = ⟨0, 0, -dragAtRest.grav⟩ ∧
    (Vehicle.forcesDrag dragAtRest).dvbe = Vec3.absolute dragAtRest.vbel ∧
    (Vehicle.seeker seekerCoLocated).utaa = Vec3.zero ∧
    (Vehicle.seeker seekerCoLocated).woea = Vec3.zero ∧
    (Vehicle.seeker seekerCoLocated).dvta = 0 ∧
    (Vehicle.seeker seekerCoLocated).tgo = 0 :=
  C7_epsilon_guards dragAtRest seekerCoLocated
    (by norm_num [dragAtRest, Vec3.absolute, ratSqrt])
    (by norm_num [seekerCoLocated, Vec3.absolute, Vec3.sub, ratSqrt])

/-! ## Claim C10 — the example and regression BALL3 forces modules -/

/-- Claim C10 (counterexample): on `ballDivergent` — a store that agrees
with itself on every slot both modules read — the example module computes
`dvbe = 0` (it reads the position slot 20) while the regression module
computes `dvbe = 1` (it reads the velocity slot 21), and the written
specific-force vectors differ as well (`-grav` versus `+grav` in the
down component). -/
theorem C10_counterexample :
    (Ball.forcesExample ballDivergent).dvbe = 0 ∧
    (Ball.forcesRegression ballDivergent).dvbe = 1 ∧
    (Ball.forcesExample ballDivergent).fspb = ⟨0, 0, -(9.81 : ℚ)⟩ ∧
    (Ball.forcesRegression ballDivergent).fspb = ⟨0, 0, (9.81 : ℚ)⟩ ∧
    (Vec3.mk 0 0 (-(9.81 : ℚ))) ≠ (Vec3.mk 0 0 (9.81 : ℚ)) := by
  refine ⟨?_, ?_, ?_, ?_, by norm_num [Vec3.mk.injEq]⟩
  · norm_num [Ball.forcesExample, ballDivergent, Vec3.absolute, ratSqrt]
  · norm_num [Ball.forcesRegression, ballDivergent, Vec3.absolute, ratSqrt]
  · norm_num [Ball.forcesExample, ballDivergent, Vec3.absolute, ratSqrt, Vec3.zero]
  · norm_num [Ball.forcesRegression, ballDivergent, Vec3.absolute, ratSqrt,
      Vec3.smul]

/-- Claim C10 (amended): on every store where the position slot 20 and
the velocity slot 21 hold the same vector, the two modules write the same
speed `dvbe` — the example module reads slot 20 where the regression
module reads slot 21 (agreement of the slots is sufficient, not
necessary: distinct vectors of equal norm also yield equal speeds); their
specific-force outputs differ in general (opposite gravity sign,
hardcoded versus stored air density, and thresholds 0.1 versus 0.01), as
the counterexample shows. -/
theorem C10_dvbe_agrees_when_slots_agree (s : BallStore)
    (h : s.sbel = s.vbel) :
    (Ball.forcesExample s).dvbe = (Ball.forcesRegression s).dvbe := by
  simp only [Ball.forcesExample, Ball.forcesRegression, h]

/-! ## Claim C2 — writes to data-role slots after init -/

/-- Claim C2 (counterexample): `Vehicle::propulsion` writes the
`data`-role slot 10 (mprop) at the end of every exec step, and the write
takes effect instead of failing: on `propNearEmpty` the exec step crosses
fuel exhaustion and the stored `mprop` changes from 3 to 0 — this
persisted write is precisely how engine shutdown works, so a fatal
`ImmutableParameter` on it would contradict the module's documented
multi-step behavior. -/
theorem C2_counterexample :
    propulsionRole 10 = some Role.data ∧
    propNearEmpty.mprop = 3 ∧
    (Vehicle.propulsion propNearEmpty 1).mprop = 0 := by
  refine ⟨by decide, by decide, ?_⟩
  norm_num [Vehicle.propulsion, integrate, propNearEmpty, AGRAV]

/-- Claim C2 (amended): the store does not role-check writes — a
post-init write to the `data`-role slot `mprop` (index 10) by the
propulsion exec phase succeeds and leaves the slot holding the written
value: either the incoming mode unchanged or 0 after engine shutdown. -/
theorem C2_data_slot_write_succeeds (s : PropState) (dt : ℚ) :
    propulsionRole 10 = some Role.data ∧
    ((Vehicle.propulsion s dt).mprop = s.mprop ∨
      (Vehicle.propulsion s dt).mprop = 0) := by
  refine ⟨by decide, ?_⟩
  simp only [Vehicle.propulsion]
  split_ifs <;> simp

/-! ## Claim C4 — event reassignments and slot kinds -/

/-- Claim C4 (evaluation at the failing input): reassigning the
integer-kind slot 0 to the value `7/2` should, per the claim, leave the
store `[iv 3]` with only the integer-converted value written; instead the
reassignment loop of `Ball::event` — whose `else` before
`ball[index].gets(value)` is missing — performs a second, real-kind write
on the integer slot, which the spec's store rejects with `KindMismatch`. -/
theorem C4_missing_else_kind_violation :
    truncInt (7/2) = 3 ∧
    eventApplyAssigns intSlotStore [(0, 7/2)] =
      Except.error ErrKind.KindMismatch ∧
    (Except.error ErrKind.KindMismatch : Except ErrKind VStore) ≠
      Except.ok [VValue.iv 3] := by
  refine ⟨?_, rfl, fun h => Except.noConfusion h⟩
  norm_num [truncInt]

/-! ## Claims C5 and C8 — the event engine's firing discipline -/

/-- One call of the event engine either leaves the bookkeeping unchanged
and fires nothing, or fires exactly the event at index `nevent` and
advances `nevent` by one. -/
lemma eventStep_cases (evs : List Event) (es : EngineState) (st : VStore) :
    ((eventStep evs es st).2 = none ∧ (eventStep evs es st).1 = es) ∨
    ((eventStep evs es st).2 = some es.nevent ∧
      (eventStep evs es st).1.nevent = es.nevent + 1) := by
  unfold eventStep
  by_cases h0 : es.event_total = 0
  · rw [if_pos h0]
    exact Or.inl ⟨rfl, rfl⟩
  · rw [if_neg h0]
    cases hev : evs.get? es.nevent with
    | none =>
      exact Or.inl ⟨rfl, rfl⟩
    | some ev =>
      simp only [eventTest]
      cases hc : eventCond st ev
      · exact Or.inl ⟨rfl, rfl⟩
      · exact Or.inr ⟨rfl, rfl⟩

/-- Along any run, every fired-event index is at least the engine's
starting `nevent` index. -/
lemma eventRun_fired_ge (evs : List Event) :
    ∀ (sts : List VStore) (es : EngineState) (i : ℕ),
      some i ∈ eventRun evs es sts → es.nevent ≤ i := by
  intro sts
  induction sts with
  | nil =>
    intro es i h
    simp [eventRun] at h
  | cons st rest ih =>
    intro es i h
    simp only [eventRun, List.mem_cons] at h
    rcases h with h | h
    · rcases eventStep_cases evs es st with ⟨h2, _⟩ | ⟨h2, _⟩
      · rw [h2] at h
        exact absurd h (by simp)
      · rw [h2] at h
        obtain rfl : i = es.nevent := Option.some.inj h
        exact le_refl _
    · have hge := ih (eventStep evs es st).1 i h
      rcases eventStep_cases evs es st with ⟨_, h1⟩ | ⟨_, h1⟩
      · rw [h1] at hge
        exact hge
      · omega

/-- Claim C5: over any run of the event engine — any event list, any
initial bookkeeping, any sequence of per-step stores — each declared
event fires at most once: after the step in which it fires, `nevent` has
advanced past it, so its condition is never tested nor its reassignments
applied again. -/
theorem C5_event_fires_at_most_once (evs : List Event) (sts : List VStore)
    (es : EngineState) (i : ℕ) :
    (eventRun evs es sts).count (some i) ≤ 1 := by
  induction sts generalizing es with
  | nil => simp [eventRun]
  | cons st rest ih =>
    simp only [eventRun]
    rcases eventStep_cases evs es st with ⟨h2, h1⟩ | ⟨h2, h1⟩
    · rw [h2]
      rw [List.count_cons_of_ne (by simp)]
      exact ih _
    · rw [h2]
      by_cases hi : i = es.nevent
      · subst hi
        have hz :
            (eventRun evs (eventStep evs es st).1 rest).count (some es.nevent) = 0 := by
          rw [List.count_eq_zero]
          intro hmem
          have := eventRun_fired_ge evs rest (eventStep evs es st).1 es.nevent hmem
          omega
        rw [List.count_cons_self, hz]
      · rw [List.count_cons_of_ne (by simpa using hi)]
        exact ih _

/-- Claim C8: on every step the engine evaluates only the
earliest-declared not-yet-fired event: the fired report is nothing or
exactly the index `nevent`, and the whole step is unchanged if every
event other than the one at `nevent` is replaced arbitrarily — so a
later-declared event never fires while an earlier one is still armed,
even if the later event's condition already holds. -/
theorem C8_only_earliest_armed_event_tested (evs evs' : List Event)
    (es : EngineState) (st : VStore)
    (h : evs.get? es.nevent = evs'.get? es.nevent) :
    ((eventStep evs es st).2 = none ∨
      (eventStep evs es st).2 = some es.nevent) ∧
    eventStep evs es st = eventStep evs' es st := by
  constructor
  · rcases eventStep_cases evs es st with ⟨h2, _⟩ | ⟨h2, _⟩
    · left
      exact h2
    · right
      exact h2
  · unfold eventStep
    rw [h]

/-- Claim C8 (witness): with `evFirst` still armed at index 0 and the
later-declared `evSecond` whose condition also holds on `evStore`, the
step fires only event 0, and removing `evSecond` from the declaration
list changes nothing. -/
theorem C8_only_earliest_witness :
    ((eventStep [evFirst] ⟨0, 2⟩ evStore).2 = none ∨
      (eventStep [evFirst] ⟨0, 2⟩ evStore).2 = some 0) ∧
    eventStep [evFirst] ⟨0, 2⟩ evStore =
      eventStep [evFirst, evSecond] ⟨0, 2⟩ evStore :=
  C8_only_earliest_armed_event_tested [evFirst] [evFirst, evSecond] ⟨0, 2⟩ evStore rfl

/-- Claim C10 (witness): the amended agreement on a concrete store whose
slots 20 and 21 both hold the vector (3, 0, 4). -/
theorem C10_dvbe_agrees_witness :
    (Ball.forcesExample
      { grav := 9.81, cd := 1, area := 1, rho := 1.225, dvbe := 0,
        fspb := ⟨0, 0, 0⟩, sbel := ⟨3, 0, 4⟩, vbel := ⟨3, 0, 4⟩ }).dvbe =
    (Ball.forcesRegression
      { grav := 9.81, cd := 1, area := 1, rho := 1.225, dvbe := 0,
        fspb := ⟨0, 0, 0⟩, sbel := ⟨3, 0, 4⟩, vbel := ⟨3, 0, 4⟩ }).dvbe :=
  C10_dvbe_agrees_when_slots_agree _ rfl

end CADAC
